import Mathlib

/-!
# Verification of the statefulmodal Database/Identity core

Shallow embedding of the `Database` class of `src/app.py` (SQLite-backed
store with three tables: `users`, `allowed_emails`, `notes`) together with
the session guards `require_auth` / `require_admin` and the session capture
performed by `AppAuth.get_auth`.

Modelling conventions:
* Each table is a list of rows in rowid (insertion) order; `AUTOINCREMENT`
  surrogate keys are modelled by explicit next-id counters.
* `CURRENT_TIMESTAMP` / `datetime.now()` are modelled by an explicit
  `now : Nat` argument to each operation that reads the clock.
* SQLite's `LOWER` folds only ASCII `A`-`Z`; Python's `str.lower` agrees
  with it on ASCII strings (all emails in the claims are ASCII).  Both are
  modelled by `lowerStr`, which maps `Char.toLower` (ASCII case folding)
  over the characters.
* Columns with SQL `NULL` are `Option`-typed.
-/

namespace StatefulModal

/-- ASCII lower-casing of a string, character by character.  This models both
SQLite `LOWER(...)` and Python `str.lower()` on the ASCII strings involved. -/
def lowerStr (s : String) : String := ⟨s.data.map Char.toLower⟩

/-- A row of the `users` table:
`id PK AUTOINCREMENT, email UNIQUE NOT NULL, name NOT NULL,`
`is_admin DEFAULT FALSE, created_at DEFAULT CURRENT_TIMESTAMP, last_login` (nullable). -/
structure UserRow where
  id : Nat
  email : String
  name : String
  is_admin : Bool
  created_at : Nat
  last_login : Option Nat
  deriving Repr, DecidableEq

/-- A row of the `allowed_emails` table:
`id PK AUTOINCREMENT, email UNIQUE NOT NULL, added_by, added_at DEFAULT CURRENT_TIMESTAMP`. -/
structure AllowedRow where
  id : Nat
  email : String
  added_by : String
  added_at : Nat
  deriving Repr, DecidableEq

/-- A row of the `notes` table:
`id PK AUTOINCREMENT, user_id NOT NULL (FK users.id, not enforced), content NOT NULL,`
`created_at DEFAULT CURRENT_TIMESTAMP`. -/
structure NoteRow where
  id : Nat
  user_id : Int
  content : String
  created_at : Nat
  deriving Repr, DecidableEq

/-- The SQLite database state: the three tables (rows listed in rowid order)
and the `AUTOINCREMENT` counters. -/
structure DB where
  users : List UserRow
  allowed : List AllowedRow
  notes : List NoteRow
  nextUserId : Nat
  nextAllowedId : Nat
  nextNoteId : Nat
  deriving Repr, DecidableEq

/-- The `User` dataclass returned by `Database.get_or_create_user` (an
in-memory value, possibly distinct from what the `users` table stores). -/
structure User where
  id : Nat
  email : String
  name : String
  is_admin : Bool
  created_at : Nat
  last_login : Option Nat
  deriving Repr, DecidableEq

/-- `Database.is_email_allowed`:
`SELECT 1 FROM allowed_emails WHERE LOWER(email) = LOWER(?)`, nonempty result. -/
def is_email_allowed (db : DB) (email : String) : Bool :=
  db.allowed.any (fun r => lowerStr r.email == lowerStr email)

/-- `Database.add_allowed_email`:
`INSERT OR IGNORE INTO allowed_emails (email, added_by) VALUES (?, ?)` with
the Python-side `email.lower()` applied first.  `OR IGNORE` skips the insert
exactly when the `UNIQUE` (binary-collation) constraint on `email` would be
violated, i.e. when a row with the identical email text already exists. -/
def add_allowed_email (db : DB) (email added_by : String) (now : Nat) : DB :=
  if db.allowed.any (fun r => r.email == lowerStr email) then db
  else { db with
          allowed := db.allowed ++ [⟨db.nextAllowedId, lowerStr email, added_by, now⟩],
          nextAllowedId := db.nextAllowedId + 1 }

/-- `Database.remove_allowed_email`:
`DELETE FROM allowed_emails WHERE LOWER(email) = LOWER(?)`. -/
def remove_allowed_email (db : DB) (email : String) : DB :=
  { db with
      allowed := db.allowed.filter (fun r => !(lowerStr r.email == lowerStr email)) }

/-- `Database.get_allowed_emails`: `SELECT email FROM allowed_emails`
(rowid order). -/
def get_allowed_emails (db : DB) : List String :=
  db.allowed.map (fun r => r.email)

/-- `Database.get_or_create_user`.  Returns `(None, unchanged db)` if the
email is not allowed.  Otherwise:
* existing user (first row matching `LOWER(email) = LOWER(?)`): runs
  `UPDATE users SET last_login = CURRENT_TIMESTAMP WHERE id = ?` and
  returns a `User` built from the old row with `last_login = now`;
* no existing user: runs `INSERT INTO users (email, name) VALUES (?, ?)`
  with `email.lower()` — so the stored row gets `is_admin = FALSE` and
  `created_at = CURRENT_TIMESTAMP` from the column defaults and
  `last_login = NULL` — and returns a `User` whose `last_login` field is
  nevertheless `datetime.now()`. -/
def get_or_create_user (db : DB) (email name : String) (now : Nat) :
    Option User × DB :=
  if is_email_allowed db email then
    match db.users.find? (fun u => lowerStr u.email == lowerStr email) with
    | some row =>
        (some ⟨row.id, row.email, row.name, row.is_admin, row.created_at, some now⟩,
         { db with
             users := db.users.map
               (fun u => if u.id == row.id then { u with last_login := some now } else u) })
    | none =>
        (some ⟨db.nextUserId, lowerStr email, name, false, now, some now⟩,
         { db with
             users := db.users ++
               [⟨db.nextUserId, lowerStr email, name, false, now, none⟩],
             nextUserId := db.nextUserId + 1 })
  else (none, db)

/-- `Database.get_user_by_email`:
`SELECT * FROM users WHERE LOWER(email) = LOWER(?)`, first row or `None`. -/
def get_user_by_email (db : DB) (email : String) : Option User :=
  (db.users.find? (fun u => lowerStr u.email == lowerStr email)).map
    (fun row => ⟨row.id, row.email, row.name, row.is_admin, row.created_at, row.last_login⟩)

/-- `Database.set_admin`:
`UPDATE users SET is_admin = ? WHERE LOWER(email) = LOWER(?)`. -/
def set_admin (db : DB) (email : String) (b : Bool) : DB :=
  { db with
      users := db.users.map
        (fun u => if lowerStr u.email == lowerStr email then { u with is_admin := b } else u) }

/-- `Database.add_note`:
`INSERT INTO notes (user_id, content) VALUES (?, ?)`; returns
`cursor.lastrowid`.  No foreign-key check happens: the connection never
enables `PRAGMA foreign_keys`, so the declared FK to `users.id` is inert. -/
def add_note (db : DB) (user_id : Int) (content : String) (now : Nat) :
    Nat × DB :=
  (db.nextNoteId,
   { db with
       notes := db.notes ++ [⟨db.nextNoteId, user_id, content, now⟩],
       nextNoteId := db.nextNoteId + 1 })

/-- Insert a note into a list already sorted by `created_at` descending,
after any note with the same or a greater timestamp (stable placement, as
the rows are scanned in rowid order). -/
def insertByCreatedDesc (n : NoteRow) : List NoteRow → List NoteRow
  | [] => [n]
  | m :: ms =>
      if m.created_at < n.created_at then n :: m :: ms
      else m :: insertByCreatedDesc n ms

/-- Stable insertion sort by `created_at` descending, modelling
`ORDER BY created_at DESC` applied to rows in rowid order. -/
def sortByCreatedDesc : List NoteRow → List NoteRow
  | [] => []
  | n :: ns => insertByCreatedDesc n (sortByCreatedDesc ns)

/-- `Database.get_notes`:
`SELECT * FROM notes WHERE user_id = ? ORDER BY created_at DESC`. -/
def get_notes (db : DB) (user_id : Int) : List NoteRow :=
  sortByCreatedDesc (db.notes.filter (fun n => n.user_id == user_id))

/-- `Database.delete_note`:
`DELETE FROM notes WHERE id = ? AND user_id = ?`; returns
`cursor.rowcount > 0`. -/
def delete_note (db : DB) (note_id : Nat) (user_id : Int) : Bool × DB :=
  (decide ((db.notes.filter
      (fun n => !(n.id == note_id && n.user_id == user_id))).length < db.notes.length),
   { db with
       notes := db.notes.filter (fun n => !(n.id == note_id && n.user_id == user_id)) })

/-! ## The session / authorization gate -/

/-- The session bag written by `AppAuth.get_auth` and read by the guards.
`session.get(k)` yields `none` when the key is absent. -/
structure Session where
  user_email : Option String
  user_name : Option String
  user_id : Option Nat
  is_admin : Option Bool
  deriving Repr, DecidableEq

/-- Result of `require_auth`: pass, or a 303 redirect to `/login`. -/
inductive AuthResult where
  | pass
  | redirectLogin
  deriving Repr, DecidableEq

/-- Result of `require_admin`: pass, or a 303 redirect to the error page. -/
inductive AdminResult where
  | pass
  | redirectError
  deriving Repr, DecidableEq

/-- Python truthiness of `session.get("user_email")`: falsy when the key is
absent or holds the empty string. -/
def emailTruthy : Option String → Bool
  | none => false
  | some s => !(s == "")

/-- `require_auth(session)`: redirects to `/login` when
`session.get("user_email")` is falsy; reads nothing but the session. -/
def require_auth (s : Session) : AuthResult :=
  if emailTruthy s.user_email then .pass else .redirectLogin

/-- `require_admin(session)`: redirects to the error page when
`session.get("is_admin")` is falsy (absent or `False`); reads nothing but
the session. -/
def require_admin (s : Session) : AdminResult :=
  if s.is_admin == some true then .pass else .redirectError

/-- The session claims stored by `AppAuth.get_auth` on a successful login:
`user_email`, `user_name`, `user_id`, `is_admin` taken from the returned
`User`. -/
def sessionOf (u : User) : Session :=
  ⟨some u.email, some u.name, some u.id, some u.is_admin⟩

/-! ## Helper lemmas -/

/-- ASCII case folding is idempotent on characters. -/
theorem toLower_toLower (c : Char) : c.toLower.toLower = c.toLower := by
  unfold Char.toLower
  by_cases h : c.toNat ≥ 65 ∧ c.toNat ≤ 90
  · rw [if_pos h]
    have hv : (c.toNat + 32).isValidChar := by
      constructor
      omega
    have ht : (Char.ofNat (c.toNat + 32)).toNat = c.toNat + 32 := by
      simp only [Char.ofNat, dif_pos hv]
      rfl
    rw [ht, if_neg (by omega)]
  · rw [if_neg h, if_neg h]

/-- `lowerStr` is idempotent. -/
theorem lowerStr_lowerStr (s : String) : lowerStr (lowerStr s) = lowerStr s := by
  simp only [lowerStr, List.map_map]
  congr 1
  exact List.map_congr_left (fun c _ => toLower_toLower c)

/-- `is_email_allowed` holds exactly when some allow-list row matches
case-insensitively. -/
theorem is_email_allowed_iff (db : DB) (email : String) :
    is_email_allowed db email = true ↔
      ∃ r ∈ db.allowed, lowerStr r.email = lowerStr email := by
  simp [is_email_allowed]

/-- `get_or_create_user` short-circuits to `(None, unchanged db)` when no
allow-list row matches case-insensitively. -/
theorem get_or_create_user_denied (db : DB) (email name : String) (now : Nat)
    (h : ∀ r ∈ db.allowed, lowerStr r.email ≠ lowerStr email) :
    get_or_create_user db email name now = (none, db) := by
  have hb : ¬ is_email_allowed db email = true := by
    rw [is_email_allowed_iff]
    rintro ⟨r, hr, hle⟩
    exact h r hr hle
  simp [get_or_create_user, hb]

/-! ## Claims -/

/-- C1.  For every email not present (case-insensitively) in the
`allowed_emails` table, `get_or_create_user` returns `None` and leaves the
whole database — in particular the `users` table — unchanged. -/
theorem allowlist_gating (db : DB) (email name : String) (now : Nat)
    (h : ∀ r ∈ db.allowed, lowerStr r.email ≠ lowerStr email) :
    get_or_create_user db email name now = (none, db) :=
  get_or_create_user_denied db email name now h

/-- Witness for C1: a concrete denied login leaves the store untouched. -/
theorem allowlist_gating_witness :
    get_or_create_user ⟨[], [⟨1, "a@b.com", "system", 0⟩], [], 1, 2, 1⟩
        "x@y.com" "X" 5
      = (none, ⟨[], [⟨1, "a@b.com", "system", 0⟩], [], 1, 2, 1⟩) :=
  allowlist_gating _ _ _ _ (by decide)

/-- C7.  `remove_allowed_email` leaves the `users` and `notes` tables
untouched (so an already-created User row survives revocation), and a fresh
`get_or_create_user` call for the removed email is then denied, changing
nothing. -/
theorem revocation_non_retroactive (db : DB) (e name : String) (now : Nat) :
    (remove_allowed_email db e).users = db.users ∧
    (remove_allowed_email db e).notes = db.notes ∧
    get_or_create_user (remove_allowed_email db e) e name now
      = (none, remove_allowed_email db e) := by
  refine ⟨rfl, rfl, ?_⟩
  apply get_or_create_user_denied
  intro r hr
  simp only [remove_allowed_email, List.mem_filter] at hr
  simpa using hr.2

/-- C2 counterexample.  The claim says the User row inserted into the store
on first login has `last_login = now`; in fact `INSERT INTO users (email,
name)` leaves `last_login` NULL.  Concretely, logging in `foo@bar.com` at
time 5 against a store that allows it inserts a row whose `last_login` is
`none`, not `some 5`. -/
theorem create_user_stored_last_login_cex :
    ¬ ∀ u ∈ (get_or_create_user
          ⟨[], [⟨1, "foo@bar.com", "system", 0⟩], [], 1, 2, 1⟩
          "foo@bar.com" "Foo" 5).2.users,
        u.last_login = some 5 := by decide

/-- C2 (amended).  For an allowed email with no existing User, the row
inserted into the store has `is_admin = false`, `created_at = now` and
`last_login = NULL` (unset), while the returned `User` reports
`is_admin = false`, `created_at = now` and `last_login = now`. -/
theorem create_user_fields (db : DB) (email name : String) (now : Nat)
    (hallow : is_email_allowed db email = true)
    (hnew : db.users.find? (fun u => lowerStr u.email == lowerStr email) = none) :
    ∃ u : User,
      (get_or_create_user db email name now).1 = some u ∧
      u.is_admin = false ∧ u.created_at = now ∧ u.last_login = some now ∧
      (get_or_create_user db email name now).2.users
        = db.users ++ [⟨u.id, u.email, u.name, false, now, none⟩] := by
  unfold get_or_create_user
  rw [if_pos hallow, hnew]
  exact ⟨_, rfl, rfl, rfl, rfl, rfl⟩

/-- Witness for the amended C2: a concrete first login. -/
theorem create_user_fields_witness :
    ∃ u : User,
      (get_or_create_user ⟨[], [⟨1, "foo@bar.com", "system", 0⟩], [], 1, 2, 1⟩
          "foo@bar.com" "Foo" 5).1 = some u ∧
      u.is_admin = false ∧ u.created_at = 5 ∧ u.last_login = some 5 ∧
      (get_or_create_user ⟨[], [⟨1, "foo@bar.com", "system", 0⟩], [], 1, 2, 1⟩
          "foo@bar.com" "Foo" 5).2.users
        = [] ++ [⟨u.id, u.email, u.name, false, 5, none⟩] :=
  create_user_fields _ "foo@bar.com" "Foo" 5 (by decide) (by decide)

/-- C9.  Logging in an allowed email whose User row already exists updates
only that row's `last_login`; every other field and every other row of every
table is untouched, and the existing user (with the refreshed `last_login`)
is returned. -/
theorem existing_user_login (db : DB) (email name : String) (now : Nat)
    (row : UserRow)
    (hallow : is_email_allowed db email = true)
    (hfind : db.users.find? (fun u => lowerStr u.email == lowerStr email)
      = some row) :
    (get_or_create_user db email name now).1
      = some ⟨row.id, row.email, row.name, row.is_admin, row.created_at, some now⟩ ∧
    (get_or_create_user db email name now).2.allowed = db.allowed ∧
    (get_or_create_user db email name now).2.notes = db.notes ∧
    (get_or_create_user db email name now).2.nextUserId = db.nextUserId ∧
    (get_or_create_user db email name now).2.users
      = db.users.map
          (fun u => if u.id == row.id then { u with last_login := some now } else u) ∧
    ∀ u ∈ db.users, u.id ≠ row.id →
      u ∈ (get_or_create_user db email name now).2.users := by
  unfold get_or_create_user
  rw [if_pos hallow, hfind]
  refine ⟨rfl, rfl, rfl, rfl, rfl, ?_⟩
  intro u hu hne
  simp only [List.mem_map]
  refine ⟨u, hu, ?_⟩
  rw [if_neg (by simpa using hne)]

/-- Witness for C9: a concrete repeat login refreshes only `last_login`. -/
theorem existing_user_login_witness :
    (get_or_create_user
        ⟨[⟨1, "a@b.com", "A", false, 0, none⟩], [⟨1, "a@b.com", "system", 0⟩],
         [], 2, 2, 1⟩ "a@b.com" "A2" 7).1
      = some ⟨1, "a@b.com", "A", false, 0, some 7⟩ ∧
    (get_or_create_user
        ⟨[⟨1, "a@b.com", "A", false, 0, none⟩], [⟨1, "a@b.com", "system", 0⟩],
         [], 2, 2, 1⟩ "a@b.com" "A2" 7).2.allowed = [⟨1, "a@b.com", "system", 0⟩] :=
  ⟨(existing_user_login _ "a@b.com" "A2" 7 ⟨1, "a@b.com", "A", false, 0, none⟩
      (by decide) (by decide)).1,
   (existing_user_login _ "a@b.com" "A2" 7 ⟨1, "a@b.com", "A", false, 0, none⟩
      (by decide) (by decide)).2.1⟩

/-- `add_allowed_email` touches only the `allowed_emails` table. -/
theorem add_allowed_email_users (db : DB) (e b : String) (t : Nat) :
    (add_allowed_email db e b t).users = db.users := by
  unfold add_allowed_email
  split <;> rfl

/-- A login for an allowed email never comes back `None`. -/
theorem get_or_create_user_isSome (db : DB) (e n : String) (t : Nat)
    (h : is_email_allowed db e = true) :
    (get_or_create_user db e n t).1 ≠ none := by
  unfold get_or_create_user
  rw [if_pos h]
  rcases hf : db.users.find? (fun u => lowerStr u.email == lowerStr e) with _ | row <;>
    rw [hf] <;> simp

/-- `get_or_create_user` preserves the invariant that every stored user
email is already in canonical lower case. -/
theorem get_or_create_user_emails_lower (db : DB) (e n : String) (t : Nat)
    (hinv : ∀ u ∈ db.users, lowerStr u.email = u.email) :
    ∀ u ∈ (get_or_create_user db e n t).2.users, lowerStr u.email = u.email := by
  unfold get_or_create_user
  by_cases hb : is_email_allowed db e = true
  · rw [if_pos hb]
    rcases hf : db.users.find? (fun u => lowerStr u.email == lowerStr e) with _ | row
    · rw [hf]
      intro u hu
      simp only [List.mem_append, List.mem_singleton] at hu
      rcases hu with h1 | rfl
      · exact hinv u h1
      · exact lowerStr_lowerStr e
    · rw [hf]
      intro u hu
      simp only [List.mem_map] at hu
      obtain ⟨w, hw, rfl⟩ := hu
      by_cases hid : (w.id == row.id) = true
      · rw [if_pos hid]
        exact hinv w hw
      · rw [if_neg hid]
        exact hinv w hw
  · rw [if_neg hb]
    exact hinv

/-- C3.  Case-insensitivity: an allow-list entry added with one casing
matches a login with any other casing of the same email (and the login is
not denied), and every user email the store holds afterwards is in
canonical lower case. -/
theorem case_insensitive_matching (db : DB) (e e' b name : String) (t t' : Nat)
    (hle : lowerStr e = lowerStr e')
    (hinv : ∀ u ∈ db.users, lowerStr u.email = u.email) :
    is_email_allowed (add_allowed_email db e b t) e' = true ∧
    (get_or_create_user (add_allowed_email db e b t) e' name t').1 ≠ none ∧
    ∀ u ∈ (get_or_create_user (add_allowed_email db e b t) e' name t').2.users,
      lowerStr u.email = u.email := by
  have hall : is_email_allowed (add_allowed_email db e b t) e' = true := by
    rw [is_email_allowed_iff]
    unfold add_allowed_email
    by_cases hc : db.allowed.any (fun r => r.email == lowerStr e) = true
    · rw [if_pos hc]
      simp only [List.any_eq_true, beq_iff_eq] at hc
      obtain ⟨r, hr, hre⟩ := hc
      exact ⟨r, hr, by rw [hre, lowerStr_lowerStr, hle]⟩
    · rw [if_neg hc]
      refine ⟨⟨db.nextAllowedId, lowerStr e, b, t⟩, by simp, ?_⟩
      rw [lowerStr_lowerStr, hle]
  refine ⟨hall, get_or_create_user_isSome _ _ _ _ hall, ?_⟩
  apply get_or_create_user_emails_lower
  rw [add_allowed_email_users]
  exact hinv

/-- Witness for C3: `"foo@bar.com"` on the allow-list admits
`"Foo@Bar.com"`. -/
theorem case_insensitive_matching_witness :
    is_email_allowed
        (add_allowed_email ⟨[], [], [], 1, 1, 1⟩ "foo@bar.com" "system" 0)
        "Foo@Bar.com" = true ∧
    (get_or_create_user
        (add_allowed_email ⟨[], [], [], 1, 1, 1⟩ "foo@bar.com" "system" 0)
        "Foo@Bar.com" "x" 5).1 ≠ none :=
  ⟨(case_insensitive_matching ⟨[], [], [], 1, 1, 1⟩ "foo@bar.com" "Foo@Bar.com"
      "system" "x" 0 5 (by decide) (by decide)).1,
   (case_insensitive_matching ⟨[], [], [], 1, 1, 1⟩ "foo@bar.com" "Foo@Bar.com"
      "system" "x" 0 5 (by decide) (by decide)).2.1⟩

/-- C4.  `delete_note` returns `true` exactly when a note with that id and
that owner existed; on `false` the whole store is untouched; and in general
a note survives exactly when it was present and not the targeted
(id, owner) pair. -/
theorem delete_note_ownership (db : DB) (nid : Nat) (uid : Int) :
    ((delete_note db nid uid).1 = true ↔
      ∃ n ∈ db.notes, n.id = nid ∧ n.user_id = uid) ∧
    ((delete_note db nid uid).1 = false → (delete_note db nid uid).2 = db) ∧
    ∀ n : NoteRow, n ∈ (delete_note db nid uid).2.notes ↔
      (n ∈ db.notes ∧ ¬ (n.id = nid ∧ n.user_id = uid)) := by
  unfold delete_note
  refine ⟨?_, ?_, ?_⟩
  · simp only [decide_eq_true_eq, List.length_filter_lt_length_iff_exists]
    constructor
    · rintro ⟨x, hx, hpx⟩
      refine ⟨x, hx, ?_⟩
      simpa using hpx
    · rintro ⟨x, hx, h1, h2⟩
      exact ⟨x, hx, by simp [h1, h2]⟩
  · intro hfalse
    simp only [decide_eq_false_iff_not, not_lt] at hfalse
    have heq :
        db.notes.filter (fun n => !(n.id == nid && n.user_id == uid)) = db.notes := by
      apply List.filter_eq_self.mpr
      intro a ha
      by_contra hpa
      have hlt : (db.notes.filter
          (fun n => !(n.id == nid && n.user_id == uid))).length < db.notes.length :=
        List.length_filter_lt_length_iff_exists.mpr ⟨a, ha, hpa⟩
      omega
    simp only [heq]
  · intro n
    rw [List.mem_filter]
    have hiff : (!(n.id == nid && n.user_id == uid)) = true ↔
        ¬ (n.id = nid ∧ n.user_id = uid) := by
      simp
      tauto
    rw [hiff]

/-- Witness for C4 (ownership isolation): user B cannot delete A's note —
the call returns `false` and the store is unchanged — while A's own delete
returns `true`. -/
theorem delete_note_ownership_witness :
    (delete_note ⟨[], [], [⟨1, 1, "hi", 0⟩], 1, 1, 2⟩ 1 2).1 = false ∧
    (delete_note ⟨[], [], [⟨1, 1, "hi", 0⟩], 1, 1, 2⟩ 1 2).2
      = ⟨[], [], [⟨1, 1, "hi", 0⟩], 1, 1, 2⟩ ∧
    (delete_note ⟨[], [], [⟨1, 1, "hi", 0⟩], 1, 1, 2⟩ 1 1).1 = true :=
  ⟨by decide,
   (delete_note_ownership ⟨[], [], [⟨1, 1, "hi", 0⟩], 1, 1, 2⟩ 1 2).2.1 (by decide),
   (delete_note_ownership ⟨[], [], [⟨1, 1, "hi", 0⟩], 1, 1, 2⟩ 1 1).1.mpr
     ⟨⟨1, 1, "hi", 0⟩, by decide, rfl, rfl⟩⟩

/-- C5.  Creating notes N1, N2, N3 in sequence (at strictly increasing
timestamps) for one user makes `get_notes` return them newest first:
N3, N2, N1. -/
theorem notes_ordering (db : DB) (uid : Int) (s1 s2 s3 : String) (t1 t2 t3 : Nat)
    (hmine : db.notes.filter (fun n => n.user_id == uid) = [])
    (h12 : t1 < t2) (h23 : t2 < t3) :
    get_notes
        (add_note (add_note (add_note db uid s1 t1).2 uid s2 t2).2 uid s3 t3).2 uid
      = [⟨db.nextNoteId + 1 + 1, uid, s3, t3⟩,
         ⟨db.nextNoteId + 1, uid, s2, t2⟩,
         ⟨db.nextNoteId, uid, s1, t1⟩] := by
  have hn32 : ¬ t3 < t2 := by omega
  have hn31 : ¬ t3 < t1 := by omega
  have hn21 : ¬ t2 < t1 := by omega
  simp [add_note, get_notes, List.filter_append, hmine,
    sortByCreatedDesc, insertByCreatedDesc, hn32, hn31, hn21]

/-- Witness for C5: three concrete notes come back newest first. -/
theorem notes_ordering_witness :
    get_notes
        (add_note (add_note (add_note ⟨[], [], [], 1, 1, 1⟩ 7 "a" 1).2 7 "b" 2).2
          7 "c" 3).2 7
      = [⟨3, 7, "c", 3⟩, ⟨2, 7, "b", 2⟩, ⟨1, 7, "a", 1⟩] :=
  notes_ordering ⟨[], [], [], 1, 1, 1⟩ 7 "a" "b" "c" 1 2 3
    (by decide) (by decide) (by decide)

/-- C6.  Allow-list add is idempotent: a second add of the same email (in
any casing) is a silent no-op and exactly one matching row remains; removing
an absent email is a silent no-op. -/
theorem allowlist_add_idempotent (db : DB) (e1 e2 e3 b1 b2 : String) (t1 t2 : Nat)
    (h12 : lowerStr e1 = lowerStr e2)
    (habs : ∀ r ∈ db.allowed, lowerStr r.email ≠ lowerStr e1)
    (habs3 : ∀ r ∈ db.allowed, lowerStr r.email ≠ lowerStr e3) :
    add_allowed_email (add_allowed_email db e1 b1 t1) e2 b2 t2
      = add_allowed_email db e1 b1 t1 ∧
    ((add_allowed_email db e1 b1 t1).allowed.filter
        (fun r => lowerStr r.email == lowerStr e1)).length = 1 ∧
    remove_allowed_email db e3 = db := by
  have hbin : ¬ (db.allowed.any (fun r => r.email == lowerStr e1)) = true := by
    simp only [List.any_eq_true, beq_iff_eq, not_exists]
    intro r hr
    exact habs r hr.1 (by rw [hr.2, lowerStr_lowerStr])
  have hadd1 : add_allowed_email db e1 b1 t1
      = { db with
            allowed := db.allowed ++ [⟨db.nextAllowedId, lowerStr e1, b1, t1⟩],
            nextAllowedId := db.nextAllowedId + 1 } := by
    rw [add_allowed_email, if_neg hbin]
  refine ⟨?_, ?_, ?_⟩
  · have hc : ((add_allowed_email db e1 b1 t1).allowed.any
        (fun r => r.email == lowerStr e2)) = true := by
      rw [hadd1]
      simp [h12]
    rw [add_allowed_email, if_pos hc]
  · rw [hadd1]
    have hnil : db.allowed.filter (fun r => lowerStr r.email == lowerStr e1) = [] := by
      apply List.filter_eq_nil_iff.mpr
      intro r hr
      simpa using habs r hr
    simp [List.filter_append, hnil, lowerStr_lowerStr]
  · have hall : db.allowed.filter (fun r => !(lowerStr r.email == lowerStr e3))
        = db.allowed := by
      apply List.filter_eq_self.mpr
      intro r hr
      simpa using habs3 r hr
    rw [remove_allowed_email, hall]

/-- Witness for C6: a concrete double add in two casings plus a no-op
removal. -/
theorem allowlist_add_idempotent_witness :
    add_allowed_email
        (add_allowed_email ⟨[], [], [], 1, 1, 1⟩ "Foo@Bar.com" "system" 0)
        "FOO@bar.COM" "admin@x.com" 4
      = add_allowed_email ⟨[], [], [], 1, 1, 1⟩ "Foo@Bar.com" "system" 0 ∧
    ((add_allowed_email ⟨[], [], [], 1, 1, 1⟩ "Foo@Bar.com" "system" 0).allowed.filter
        (fun r => lowerStr r.email == lowerStr "Foo@Bar.com")).length = 1 ∧
    remove_allowed_email ⟨[], [], [], 1, 1, 1⟩ "absent@x.com" = ⟨[], [], [], 1, 1, 1⟩ :=
  allowlist_add_idempotent ⟨[], [], [], 1, 1, 1⟩ "Foo@Bar.com" "FOO@bar.COM"
    "absent@x.com" "system" "admin@x.com" 0 4 (by decide) (by decide) (by decide)

/-- C8.  `require_admin` is a pure function of the session claims (it reads
only the `is_admin` claim), so a session captured at a login that returned a
non-admin user keeps failing the admin guard even after `set_admin` has
turned on `is_admin` for that email in the store. -/
theorem admin_gate_staleness (db db1 : DB) (email name : String) (now : Nat)
    (u : User)
    (_hauth : get_or_create_user db email name now = (some u, db1))
    (hnotadmin : u.is_admin = false) :
    require_admin (sessionOf u) = AdminResult.redirectError ∧
    (∀ s s' : Session, s.is_admin = s'.is_admin →
      require_admin s = require_admin s') ∧
    ∀ v ∈ (set_admin db1 email true).users,
      lowerStr v.email = lowerStr email → v.is_admin = true := by
  refine ⟨?_, ?_, ?_⟩
  · simp [require_admin, sessionOf, hnotadmin]
  · intro s s' h
    simp [require_admin, h]
  · intro v hv hve
    simp only [set_admin, List.mem_map] at hv
    obtain ⟨w, hw, rfl⟩ := hv
    by_cases hc : (lowerStr w.email == lowerStr email) = true
    · rw [if_pos hc]
    · rw [if_neg hc] at hve ⊢
      exact absurd hve (by simpa using hc)

/-- Witness for C8: a concrete stale session still fails the admin guard. -/
theorem admin_gate_staleness_witness :
    require_admin (sessionOf ⟨1, "a@b.com", "A", false, 0, some 5⟩)
      = AdminResult.redirectError :=
  (admin_gate_staleness
      ⟨[⟨1, "a@b.com", "A", false, 0, none⟩], [⟨1, "a@b.com", "system", 0⟩],
       [], 2, 2, 1⟩
      ⟨[⟨1, "a@b.com", "A", false, 0, some 5⟩], [⟨1, "a@b.com", "system", 0⟩],
       [], 2, 2, 1⟩
      "a@b.com" "A" 5 ⟨1, "a@b.com", "A", false, 0, some 5⟩
      (by decide) rfl).1

/-- C10.  `add_note` succeeds and returns a fresh note id for any integer
`user_id`, including one no User row has: the declared foreign key is never
enforced, so the inserted note references a nonexistent user. -/
theorem add_note_no_fk_check (db : DB) (uid : Int) (content : String) (now : Nat)
    (hnouser : ∀ u ∈ db.users, (u.id : Int) ≠ uid)
    (hfresh : ∀ n ∈ db.notes, n.id ≠ db.nextNoteId) :
    (add_note db uid content now).1 = db.nextNoteId ∧
    (∀ n ∈ db.notes, n.id ≠ (add_note db uid content now).1) ∧
    (⟨db.nextNoteId, uid, content, now⟩ : NoteRow)
      ∈ (add_note db uid content now).2.notes ∧
    ∀ u ∈ (add_note db uid content now).2.users, (u.id : Int) ≠ uid := by
  refine ⟨rfl, ?_, ?_, ?_⟩
  · intro n hn
    exact hfresh n hn
  · simp [add_note]
  · intro u hu
    exact hnouser u hu

/-- Witness for C10: a note for the nonexistent user id `-5` is created. -/
theorem add_note_no_fk_check_witness :
    (add_note ⟨[⟨1, "a@b.com", "A", false, 0, none⟩], [], [], 2, 1, 1⟩
        (-5) "orphan" 3).1 = 1 ∧
    (⟨1, -5, "orphan", 3⟩ : NoteRow)
      ∈ (add_note ⟨[⟨1, "a@b.com", "A", false, 0, none⟩], [], [], 2, 1, 1⟩
          (-5) "orphan" 3).2.notes :=
  ⟨(add_note_no_fk_check ⟨[⟨1, "a@b.com", "A", false, 0, none⟩], [], [], 2, 1, 1⟩
      (-5) "orphan" 3 (by decide) (by decide)).1,
   (add_note_no_fk_check ⟨[⟨1, "a@b.com", "A", false, 0, none⟩], [], [], 2, 1, 1⟩
      (-5) "orphan" 3 (by decide) (by decide)).2.2.1⟩

end StatefulModal
